import Mathlib

set_option maxRecDepth 8000

/-!
Shallow embedding of the AI Ad Generation API backend (src/backend/server.py).

The Python service wraps a remote text-to-image model behind an
AIService class with a mock fallback, composes ad prompts from stored
company profiles, and exposes CRUD routes over two MongoDB collections
(companies and ads).  Pure logic is translated to Lean functions; the
database is explicit state (DBState); the remote model is an explicit
function argument so that theorems can quantify over its outcomes; the
list of remote invocations performed is returned alongside each result.
-/

/-- A raw in-memory image, as produced by PIL in the backend: a canvas of
given dimensions filled with a single background color, plus a list of
text draw operations (x, y, text, fill color). -/
structure RawImage where
  width : Nat
  height : Nat
  background : String
  texts : List (Nat × Nat × String × String)
deriving DecidableEq

/-- The base64 alphabet used by Python base64.b64encode. -/
def b64Table : List Char :=
  "ABCDEFGHIJKLMNOPQRSTUVWXYZabcdefghijklmnopqrstuvwxyz0123456789+/".data

/-- Character for a 6-bit group. -/
def b64Char (n : Nat) : Char := b64Table.getD n '?'

/-- Standard base64 encoding of a byte list, three bytes to four output
characters, with = padding. -/
def b64Chunks : List Nat → List Char
  | [] => []
  | [b1] => [b64Char (b1 / 4 % 64), b64Char (b1 % 4 * 16), '=', '=']
  | [b1, b2] => [b64Char (b1 / 4 % 64), b64Char (b1 % 4 * 16 + b2 / 16),
      b64Char (b2 % 16 * 4), '=']
  | b1 :: b2 :: b3 :: rest =>
      b64Char (b1 / 4 % 64) :: b64Char (b1 % 4 * 16 + b2 / 16) ::
      b64Char (b2 % 16 * 4 + b3 / 64) :: b64Char (b3 % 64) :: b64Chunks rest

/-- Models base64.b64encode(...).decode() from the backend. -/
def b64encode (bs : List Nat) : String := ⟨b64Chunks bs⟩

/-- The fixed eight-byte PNG file signature. -/
def pngSignature : List Nat := [137, 80, 78, 71, 13, 10, 26, 10]

/-- Bytes of a string (each character reduced to one byte). -/
def strBytes (s : String) : List Nat := s.data.map (fun c => c.toNat % 256)

/-- Serialization of one text draw operation of a RawImage. -/
def serializeText (t : Nat × Nat × String × String) : String :=
  toString t.1 ++ "," ++ toString t.2.1 ++ "," ++ t.2.2.1 ++ "," ++ t.2.2.2 ++ ";"

/-- The image content serialized into the PNG payload. -/
def pngPayload (img : RawImage) : String :=
  toString img.width ++ "x" ++ toString img.height ++ ";" ++ img.background ++
    ";" ++ String.join (img.texts.map serializeText)

/-- Models img.save(buffer, format="PNG"): PNG serialization of a raw
image, a byte stream starting with the PNG signature followed by the
encoded image content. -/
def pngEncode (img : RawImage) : List Nat :=
  pngSignature ++ strBytes (pngPayload img)

/-- The caption drawn by the mock renderer: the Python f-string
"Mock Ad for\n" followed by the company name. -/
def mockCaption (company_name : String) : String :=
  "Mock Ad for\n" ++ company_name

/-- Embeds AIService._generate_mock_image before encoding: a 512 by 512
RGB canvas with background color f0f0f0 and two text draws, the mock
caption in black at (50, 200) and the fixed trailer caption
"Generated with AI" in gray at (50, 300). -/
def mockImage (company_name : String) : RawImage :=
  { width := 512
    height := 512
    background := "#f0f0f0"
    texts := [(50, 200, mockCaption company_name, "black"),
              (50, 300, "Generated with AI", "gray")] }

/-- Color of every pixel column of the mock canvas: Image.new fills the
whole 512 by 512 canvas with the single color f0f0f0, so the color does
not depend on the column index. -/
def mockColumnColor (company_name : String) (_col : Nat) : String :=
  (mockImage company_name).background

/-- Embeds AIService._generate_mock_image: render the mock canvas,
serialize it to PNG bytes, and base64-encode the result. -/
def generateMockImage (company_name : String) : String :=
  b64encode (pngEncode (mockImage company_name))

/-- The AIService configuration read at construction: the optional
HF_TOKEN environment variable and whether an InferenceClient was built. -/
structure AIService where
  hf_token : Option String
  client : Bool
deriving DecidableEq

/-- Embeds AIService.__init__: the client is constructed exactly when
HF_TOKEN is present and truthy (Python treats the empty string as falsy). -/
def AIService.init (env_hf_token : Option String) : AIService :=
  { hf_token := env_hf_token
    client :=
      match env_hf_token with
      | some t => t != ""
      | none => false }

/-- One remote text-to-image invocation: the model identifier and the
prompt string actually sent. -/
structure RemoteCall where
  model : String
  prompt : String
deriving DecidableEq

/-- Outcome of a remote invocation: a raw image, or an exception of any
kind carrying a message. -/
inductive RemoteOutcome where
  | ok : RawImage → RemoteOutcome
  | err : String → RemoteOutcome
deriving DecidableEq

/-- The fixed remote model identifier used by generate_ad_image. -/
def stableDiffusionModel : String := "stabilityai/stable-diffusion-3.5-large"

/-- The enhanced prompt built inside generate_ad_image before the remote
call. -/
def adPrompt (company_name prompt : String) : String :=
  "Professional advertisement for " ++ company_name ++ ". " ++ prompt ++
    ". High quality, commercial style, modern design, clean layout, professional lighting"

/-- Embeds AIService.generate_ad_image.  Returns the base64 string result
together with the list of remote invocations performed.  With no client
the mock path runs and no remote call is made; otherwise exactly one
remote call is attempted with the enhanced prompt, and on any exception
the mock image for the same company name is returned instead. -/
def generate_ad_image (svc : AIService) (remote : RemoteCall → RemoteOutcome)
    (prompt company_name : String) : String × List RemoteCall :=
  if !svc.client then
    (generateMockImage company_name, [])
  else
    let call : RemoteCall :=
      { model := stableDiffusionModel, prompt := adPrompt company_name prompt }
    match remote call with
    | .ok image => (b64encode (pngEncode image), [call])
    | .err _ => (generateMockImage company_name, [call])

/-- Request body of POST /api/companies (pydantic CompanyProfile). -/
structure CompanyProfile where
  name : String
  industry : String
  product_service : String
  target_audience : String
  brand_description : String := ""
  website : String := ""
deriving DecidableEq

/-- A stored company document (pydantic CompanyProfileResponse). -/
structure CompanyRecord where
  id : String
  name : String
  industry : String
  product_service : String
  target_audience : String
  brand_description : String
  website : String
  created_at : Nat
deriving DecidableEq

/-- Request body of POST /api/generate-ad (pydantic AdGenerationRequest). -/
structure AdGenerationRequest where
  company_id : String
  ad_type : String := "banner"
  custom_prompt : String := ""
  style : String := "modern"
deriving DecidableEq

/-- A stored ad document (pydantic GeneratedAd). -/
structure GeneratedAd where
  id : String
  company_id : String
  image_data : String
  prompt_used : String
  ad_type : String
  style : String
  created_at : Nat
deriving DecidableEq

/-- The database state: the companies and ads collections, in insertion
order. -/
structure DBState where
  companies : List CompanyRecord
  ads : List GeneratedAd
deriving DecidableEq

/-- Result of a route: a JSON body, or an HTTP error with status code and
detail message. -/
inductive ApiResult (α : Type) where
  | ok : α → ApiResult α
  | error : Nat → String → ApiResult α
deriving DecidableEq

/-- Embeds the GET /api/health handler; the body is a list of key-value
pairs to make the exact set of fields visible. -/
def health_check_body (svc : AIService) : List (String × String) :=
  [("status", "healthy"), ("ai_service", if svc.client then "ready" else "mock_mode")]

/-- Lookup of a field in a JSON-object body. -/
def lookupField (body : List (String × String)) (k : String) : Option String :=
  (body.find? (fun p => p.1 == k)).map Prod.snd

/-- The company document assembled by the create_company handler: the
request fields plus a fresh uuid4 id and the insertion timestamp. -/
def companyRecordOf (freshId : String) (now : Nat) (company : CompanyProfile) :
    CompanyRecord :=
  { id := freshId
    name := company.name
    industry := company.industry
    product_service := company.product_service
    target_audience := company.target_audience
    brand_description := company.brand_description
    website := company.website
    created_at := now }

/-- Embeds the POST /api/companies handler: build the document with a
fresh uuid4 id and the current time, insert it, and echo it back. -/
def create_company (freshId : String) (now : Nat) (company : CompanyProfile)
    (s : DBState) : ApiResult CompanyRecord × DBState :=
  let record := companyRecordOf freshId now company
  (.ok record, { s with companies := s.companies ++ [record] })

/-- Embeds db.companies.find_one on the id field: the first stored
company whose id matches. -/
def findCompany (s : DBState) (company_id : String) : Option CompanyRecord :=
  s.companies.find? (fun c => c.id == company_id)

/-- Embeds the GET /api/companies/id handler. -/
def get_company (company_id : String) (s : DBState) : ApiResult CompanyRecord :=
  match findCompany s company_id with
  | none => .error 404 "Company not found"
  | some c => .ok c

/-- Embeds the GET /api/companies handler. -/
def get_companies (s : DBState) : ApiResult (List CompanyRecord) :=
  .ok s.companies

/-- The multi-line f-string base_prompt composed by the generate_ad
route, with its literal indentation and line structure. -/
def basePromptCore (c : CompanyRecord) (style ad_type : String) : String :=
  "\n    Create a professional advertisement for " ++ c.name ++
  ".\n    Industry: " ++ c.industry ++
  "\n    Product/Service: " ++ c.product_service ++
  "\n    Target Audience: " ++ c.target_audience ++
  "\n    Brand Description: " ++ c.brand_description ++
  "\n    Style: " ++ style ++
  "\n    Format: " ++ ad_type ++
  "\n    "

/-- The full prompt: the base prompt, plus the additional requirements
line when custom_prompt is truthy (non-empty). -/
def buildAdPrompt (c : CompanyRecord) (req : AdGenerationRequest) : String :=
  let base := basePromptCore c req.style req.ad_type
  if req.custom_prompt != "" then
    base ++ "\nAdditional Requirements: " ++ req.custom_prompt
  else base

/-- The ad document assembled by the generate_ad handler once the
company is found: fresh uuid4 id, the requesting company id, the image
produced by the AI service for the composed prompt, the composed prompt
itself, the requested type and style, and the insertion timestamp. -/
def adRecordOf (svc : AIService) (remote : RemoteCall → RemoteOutcome)
    (freshId : String) (now : Nat) (req : AdGenerationRequest)
    (company : CompanyRecord) : GeneratedAd :=
  { id := freshId
    company_id := req.company_id
    image_data := (generate_ad_image svc remote (buildAdPrompt company req) company.name).1
    prompt_used := buildAdPrompt company req
    ad_type := req.ad_type
    style := req.style
    created_at := now }

/-- Embeds the POST /api/generate-ad handler: look up the company (404
when absent), compose the prompt, generate the image, insert the ad
document, and return it. -/
def generate_ad (svc : AIService) (remote : RemoteCall → RemoteOutcome)
    (freshId : String) (now : Nat) (req : AdGenerationRequest) (s : DBState) :
    ApiResult GeneratedAd × DBState :=
  match findCompany s req.company_id with
  | none => (.error 404 "Company not found", s)
  | some company =>
    let ad := adRecordOf svc remote freshId now req company
    (.ok ad, { s with ads := s.ads ++ [ad] })

/-- Embeds the GET /api/ads/company_id handler: all stored ads whose
company_id field equals the path parameter. -/
def get_company_ads (company_id : String) (s : DBState) :
    ApiResult (List GeneratedAd) :=
  .ok (s.ads.filter (fun a => a.company_id == company_id))

/-- Embeds the GET /api/ads handler. -/
def get_all_ads (s : DBState) : ApiResult (List GeneratedAd) :=
  .ok s.ads

/-- Embeds db.ads.delete_one on the id field: remove the first matching
document, reporting the deleted count (zero or one). -/
def deleteOneAd : List GeneratedAd → String → Nat × List GeneratedAd
  | [], _ => (0, [])
  | a :: rest, ad_id =>
    if a.id == ad_id then (1, rest)
    else
      let r := deleteOneAd rest ad_id
      (r.1, a :: r.2)

/-- Embeds the DELETE /api/ads/ad_id handler: delete_one, then 404 when
the deleted count is zero, success confirmation otherwise. -/
def delete_ad (ad_id : String) (s : DBState) : ApiResult String × DBState :=
  let r := deleteOneAd s.ads ad_id
  if r.1 == 0 then (.error 404 "Ad not found", { s with ads := r.2 })
  else (.ok "Ad deleted successfully", { s with ads := r.2 })

/-- Number of stored ads carrying a given id. -/
def countAdId (ad_id : String) (ads : List GeneratedAd) : Nat :=
  (ads.filter (fun a => a.id == ad_id)).length

/-- One API operation, carrying the fresh uuid and timestamp the handler
would generate where applicable. -/
inductive ApiOp where
  | healthOp
  | createCompanyOp (freshId : String) (now : Nat) (company : CompanyProfile)
  | getCompaniesOp
  | getCompanyOp (company_id : String)
  | generateAdOp (freshId : String) (now : Nat) (req : AdGenerationRequest)
  | getCompanyAdsOp (company_id : String)
  | getAllAdsOp
  | deleteAdOp (ad_id : String)
deriving DecidableEq

/-- Effect of each API operation on the stored state. -/
def applyOp (svc : AIService) (remote : RemoteCall → RemoteOutcome) :
    ApiOp → DBState → DBState
  | .healthOp, s => s
  | .createCompanyOp fid now c, s => (create_company fid now c s).2
  | .getCompaniesOp, s => s
  | .getCompanyOp _, s => s
  | .generateAdOp fid now req, s => (generate_ad svc remote fid now req s).2
  | .getCompanyAdsOp _, s => s
  | .getAllAdsOp, s => s
  | .deleteAdOp aid, s => (delete_ad aid s).2

/-- The operation is the company-creating one and the record carries its
freshly generated id and its insertion timestamp. -/
def opInsertsCompany (op : ApiOp) (r : CompanyRecord) : Prop :=
  ∃ fid now c, op = .createCompanyOp fid now c ∧ r.id = fid ∧ r.created_at = now

/-- The operation is the ad-generating one and the record carries its
freshly generated id and its insertion timestamp. -/
def opInsertsAd (op : ApiOp) (a : GeneratedAd) : Prop :=
  ∃ fid now req, op = .generateAdOp fid now req ∧ a.id = fid ∧ a.created_at = now

/-- The operation deletes the ad with the given id. -/
def opDeletesAdId (op : ApiOp) (i : String) : Prop :=
  op = .deleteAdOp i

/-- The second string occurs contiguously inside the first. -/
def containsStr (s sub : String) : Prop := sub.data <:+: s.data

instance instContainsStrDecidable (s sub : String) : Decidable (containsStr s sub) :=
  inferInstanceAs (Decidable (sub.data <:+: s.data))

/-- The string is the base64 encoding of a byte stream that starts with
the PNG signature, i.e. a validly PNG-encoded image as base64 text. -/
def isValidPngB64 (out : String) : Prop :=
  ∃ rest : List Nat, out = b64encode (pngSignature ++ rest)

/-- The lines of a caption string, split at newline characters. -/
def splitLinesAux : List Char → List Char → List (List Char)
  | [], acc => [acc.reverse]
  | c :: rest, acc =>
    if c == '\n' then acc.reverse :: splitLinesAux rest []
    else splitLinesAux rest (c :: acc)

/-- Lines of a string. -/
def captionLines (s : String) : List (List Char) := splitLinesAux s.data []

/-- A remote model that always fails, for concrete instantiations. -/
def errRemote : RemoteCall → RemoteOutcome := fun _ => .err "connection failed"

/-- A one-pixel image returned by a concrete successful remote model. -/
def blankImage : RawImage :=
  { width := 1, height := 1, background := "#000000", texts := [] }

/-- A remote model that always succeeds with blankImage. -/
def okRemote : RemoteCall → RemoteOutcome := fun _ => .ok blankImage

/-- Concrete company fixture for end-to-end instantiations. -/
def acmeCompany : CompanyRecord :=
  { id := "acme-1"
    name := "Acme"
    industry := "Retail"
    product_service := "Shoes"
    target_audience := "Teens"
    brand_description := "Quality footwear"
    website := "https://unique-website.example"
    created_at := 0 }

/-- Concrete ad-generation request fixture naming acmeCompany. -/
def acmeRequest : AdGenerationRequest :=
  { company_id := "acme-1"
    ad_type := "banner"
    custom_prompt := ""
    style := "modern" }

/-- Database fixture holding only acmeCompany. -/
def acmeState : DBState :=
  { companies := [acmeCompany], ads := [] }

/-- Concrete stored ad fixture. -/
def ad1 : GeneratedAd :=
  { id := "a1"
    company_id := "c-1"
    image_data := "aW1n"
    prompt_used := "p"
    ad_type := "banner"
    style := "modern"
    created_at := 0 }

/-- Database fixture holding only ad1, with no companies. -/
def adState : DBState :=
  { companies := [], ads := [ad1] }

/-- A label long enough and with enough embedded newlines to exercise
the caption layout of the mock renderer. -/
def longLabel : String :=
  "aaaaaaaaaaaaaaaaaaaaaaaaaaaaaaaaaaaaaaaaaaaaaaaaaa\nb\nc\nd"

theorem pngEncode_validB64 (img : RawImage) :
    isValidPngB64 (b64encode (pngEncode img)) :=
  ⟨strBytes (pngPayload img), rfl⟩

theorem b64encode_cons3_ne_empty (b1 b2 b3 : Nat) (rest : List Nat) :
    b64encode (b1 :: b2 :: b3 :: rest) ≠ "" := by
  simp [b64encode, b64Chunks, String.ext_iff]

theorem png_b64_ne_empty (img : RawImage) :
    b64encode (pngEncode img) ≠ "" := by
  have h : pngEncode img =
      137 :: 80 :: 78 :: (71 :: 13 :: 10 :: 26 :: 10 :: strBytes (pngPayload img)) := rfl
  rw [h]
  exact b64encode_cons3_ne_empty _ _ _ _

theorem containsStr_refl (s : String) : containsStr s s :=
  ⟨[], [], by simp⟩

theorem containsStr_appendL (a b sub : String) (h : containsStr a sub) :
    containsStr (a ++ b) sub := by
  obtain ⟨l, r, hh⟩ := h
  exact ⟨l, r ++ b.data, by rw [String.data_append, ← hh]; simp⟩

theorem containsStr_appendR (a b sub : String) (h : containsStr b sub) :
    containsStr (a ++ b) sub := by
  obtain ⟨l, r, hh⟩ := h
  exact ⟨a.data ++ l, r, by rw [String.data_append, ← hh]; simp⟩

theorem containsStr_here (sub rest : String) : containsStr (sub ++ rest) sub :=
  containsStr_appendL sub rest sub (containsStr_refl sub)

theorem containsStr_skip (a rest sub : String) (h : containsStr rest sub) :
    containsStr (a ++ rest) sub :=
  containsStr_appendR a rest sub h

theorem deleteOneAd_not_found (ads : List GeneratedAd) (ad_id : String)
    (h : ∀ a ∈ ads, a.id ≠ ad_id) : deleteOneAd ads ad_id = (0, ads) := by
  induction ads with
  | nil => rfl
  | cons a rest ih =>
    have ha : (a.id == ad_id) = false :=
      beq_eq_false_iff_ne.mpr (h a (List.mem_cons_self a rest))
    have hr := ih (fun b hb => h b (List.mem_cons_of_mem a hb))
    simp [deleteOneAd, ha, hr]

theorem deleteOneAd_found (ads : List GeneratedAd) (ad_id : String) (a : GeneratedAd)
    (ha : a ∈ ads) (hid : a.id = ad_id) :
    (deleteOneAd ads ad_id).1 = 1 ∧
    (deleteOneAd ads ad_id).2.length + 1 = ads.length := by
  induction ads with
  | nil => cases ha
  | cons b rest ih =>
    by_cases hb : (b.id == ad_id) = true
    · simp [deleteOneAd, hb]
    · have hb' : (b.id == ad_id) = false := by simpa using hb
      have hmem : a ∈ rest := by
        rcases List.mem_cons.mp ha with h1 | h1
        · subst h1
          exact absurd (beq_iff_eq.mpr hid) (by simp [hb'])
        · exact h1
      have hr := ih hmem
      constructor
      · simp [deleteOneAd, hb', hr.1]
      · simp only [deleteOneAd, hb', if_neg]
        simp [List.length_cons]
        omega
  
theorem deleteOneAd_mem_keep (ads : List GeneratedAd) (ad_id : String) (b : GeneratedAd)
    (hb : b ∈ ads) (hne : b.id ≠ ad_id) : b ∈ (deleteOneAd ads ad_id).2 := by
  induction ads with
  | nil => cases hb
  | cons a rest ih =>
    by_cases hid : (a.id == ad_id) = true
    · have hmem : b ∈ rest := by
        rcases List.mem_cons.mp hb with h1 | h1
        · subst h1; exact absurd (beq_iff_eq.mp hid) hne
        · exact h1
      simpa [deleteOneAd, hid] using hmem
    · have hid' : (a.id == ad_id) = false := by simpa using hid
      rcases List.mem_cons.mp hb with h1 | h1
      · subst h1; simp [deleteOneAd, hid']
      · simp [deleteOneAd, hid', ih h1]

theorem deleteOneAd_mem_of (ads : List GeneratedAd) (ad_id : String) (b : GeneratedAd)
    (hb : b ∈ (deleteOneAd ads ad_id).2) : b ∈ ads := by
  induction ads with
  | nil => simp [deleteOneAd] at hb
  | cons a rest ih =>
    by_cases hid : (a.id == ad_id) = true
    · simp only [deleteOneAd, hid, if_pos] at hb
      exact List.mem_cons_of_mem a hb
    · have hid' : (a.id == ad_id) = false := by simpa using hid
      simp only [deleteOneAd, hid', Bool.false_eq_true, if_neg, not_false_iff] at hb
      rcases List.mem_cons.mp hb with h1 | h1
      · exact h1 ▸ List.mem_cons_self a rest
      · exact List.mem_cons_of_mem a (ih h1)

theorem deleteOneAd_orig (ads : List GeneratedAd) (ad_id : String) (a : GeneratedAd)
    (ha : a ∈ ads) : a ∈ (deleteOneAd ads ad_id).2 ∨ a.id = ad_id := by
  by_cases hne : a.id = ad_id
  · exact Or.inr hne
  · exact Or.inl (deleteOneAd_mem_keep ads ad_id a ha hne)

theorem deleteOneAd_count (ads : List GeneratedAd) (ad_id : String) :
    countAdId ad_id (deleteOneAd ads ad_id).2 + (deleteOneAd ads ad_id).1 =
      countAdId ad_id ads := by
  induction ads with
  | nil => rfl
  | cons a rest ih =>
    by_cases hid : (a.id == ad_id) = true
    · simp [deleteOneAd, hid, countAdId, List.filter_cons, hid]
    · have hid' : (a.id == ad_id) = false := by simpa using hid
      simp only [deleteOneAd, hid', Bool.false_eq_true, if_neg, not_false_iff]
      simpa [countAdId, List.filter_cons, hid'] using ih

theorem countAdId_zero_iff (ad_id : String) (ads : List GeneratedAd) :
    countAdId ad_id ads = 0 ↔ ∀ a ∈ ads, a.id ≠ ad_id := by
  simp [countAdId, List.length_eq_zero, List.filter_eq_nil_iff]

theorem generate_ad_none (svc : AIService) (remote : RemoteCall → RemoteOutcome)
    (freshId : String) (now : Nat) (req : AdGenerationRequest) (s : DBState)
    (hfind : findCompany s req.company_id = none) :
    generate_ad svc remote freshId now req s = (.error 404 "Company not found", s) := by
  unfold generate_ad
  rw [hfind]

theorem generate_ad_found (svc : AIService) (remote : RemoteCall → RemoteOutcome)
    (freshId : String) (now : Nat) (req : AdGenerationRequest) (s : DBState)
    (company : CompanyRecord)
    (hfind : findCompany s req.company_id = some company) :
    generate_ad svc remote freshId now req s =
      (ApiResult.ok (adRecordOf svc remote freshId now req company),
        { s with ads := s.ads ++ [adRecordOf svc remote freshId now req company] }) := by
  unfold generate_ad
  rw [hfind]

theorem delete_ad_state (ad_id : String) (s : DBState) :
    (delete_ad ad_id s).2 = { s with ads := (deleteOneAd s.ads ad_id).2 } := by
  by_cases h : ((deleteOneAd s.ads ad_id).1 == 0) = true
  · simp [delete_ad, h]
  · simp [delete_ad, h]

theorem basePromptCore_contains (c : CompanyRecord) (style ad_type : String) :
    containsStr (basePromptCore c style ad_type) c.name ∧
    containsStr (basePromptCore c style ad_type) c.industry ∧
    containsStr (basePromptCore c style ad_type) c.product_service ∧
    containsStr (basePromptCore c style ad_type) c.target_audience ∧
    containsStr (basePromptCore c style ad_type) c.brand_description ∧
    containsStr (basePromptCore c style ad_type) style ∧
    containsStr (basePromptCore c style ad_type) ad_type := by
  unfold basePromptCore
  refine ⟨?_, ?_, ?_, ?_, ?_, ?_, ?_⟩
  · exact containsStr_appendL _ _ _ (containsStr_appendL _ _ _ (containsStr_appendL _ _ _ (containsStr_appendL _ _ _ (containsStr_appendL _ _ _ (containsStr_appendL _ _ _ (containsStr_appendL _ _ _ (containsStr_appendL _ _ _ (containsStr_appendL _ _ _ (containsStr_appendL _ _ _ (containsStr_appendL _ _ _ (containsStr_appendL _ _ _ (containsStr_appendL _ _ _ (containsStr_appendR _ _ _ (containsStr_refl _))))))))))))))
  · exact containsStr_appendL _ _ _ (containsStr_appendL _ _ _ (containsStr_appendL _ _ _ (containsStr_appendL _ _ _ (containsStr_appendL _ _ _ (containsStr_appendL _ _ _ (containsStr_appendL _ _ _ (containsStr_appendL _ _ _ (containsStr_appendL _ _ _ (containsStr_appendL _ _ _ (containsStr_appendL _ _ _ (containsStr_appendR _ _ _ (containsStr_refl _))))))))))))
  · exact containsStr_appendL _ _ _ (containsStr_appendL _ _ _ (containsStr_appendL _ _ _ (containsStr_appendL _ _ _ (containsStr_appendL _ _ _ (containsStr_appendL _ _ _ (containsStr_appendL _ _ _ (containsStr_appendL _ _ _ (containsStr_appendL _ _ _ (containsStr_appendR _ _ _ (containsStr_refl _))))))))))
  · exact containsStr_appendL _ _ _ (containsStr_appendL _ _ _ (containsStr_appendL _ _ _ (containsStr_appendL _ _ _ (containsStr_appendL _ _ _ (containsStr_appendL _ _ _ (containsStr_appendL _ _ _ (containsStr_appendR _ _ _ (containsStr_refl _))))))))
  · exact containsStr_appendL _ _ _ (containsStr_appendL _ _ _ (containsStr_appendL _ _ _ (containsStr_appendL _ _ _ (containsStr_appendL _ _ _ (containsStr_appendR _ _ _ (containsStr_refl _))))))
  · exact containsStr_appendL _ _ _ (containsStr_appendL _ _ _ (containsStr_appendL _ _ _ (containsStr_appendR _ _ _ (containsStr_refl _))))
  · exact containsStr_appendL _ _ _ (containsStr_appendR _ _ _ (containsStr_refl _))

theorem buildAdPrompt_lift (c : CompanyRecord) (req : AdGenerationRequest)
    (sub : String)
    (h : containsStr (basePromptCore c req.style req.ad_type) sub) :
    containsStr (buildAdPrompt c req) sub := by
  simp only [buildAdPrompt]
  by_cases hc : (req.custom_prompt != "") = true
  · rw [if_pos hc]
    exact containsStr_appendL _ _ _ (containsStr_appendL _ _ _ h)
  · rw [if_neg hc]
    exact h

theorem buildAdPrompt_custom (c : CompanyRecord) (req : AdGenerationRequest)
    (h : req.custom_prompt ≠ "") :
    containsStr (buildAdPrompt c req)
      ("\nAdditional Requirements: " ++ req.custom_prompt) := by
  have hc : (req.custom_prompt != "") = true := by simpa using h
  simp only [buildAdPrompt]
  rw [if_pos hc]
  exact ⟨(basePromptCore c req.style req.ad_type).data, [],
    by simp [String.data_append, containsStr]⟩

theorem health_lookup (svc : AIService) :
    lookupField (health_check_body svc) "ai_service" =
      some (if svc.client then "ready" else "mock_mode") := by
  cases h : svc.client
  · have hb : health_check_body svc = [("status", "healthy"), ("ai_service", "mock_mode")] := by
      simp [health_check_body, h]
    rw [hb]
    decide
  · have hb : health_check_body svc = [("status", "healthy"), ("ai_service", "ready")] := by
      simp [health_check_body, h]
    rw [hb]
    decide

/-- C1: with a remote client configured, when the remote text-to-image
invocation fails with an exception of any kind, generate_ad_image
catches the failure, does not propagate it, and returns the Mock Image
Renderer result for the same company-name label, so the caller always
receives a valid encoded image. -/
theorem remote_failure_falls_back_to_mock
    (svc : AIService) (remote : RemoteCall → RemoteOutcome)
    (prompt company_name msg : String)
    (hclient : svc.client = true)
    (hfail : remote ⟨stableDiffusionModel, adPrompt company_name prompt⟩ =
      RemoteOutcome.err msg) :
    (generate_ad_image svc remote prompt company_name).1 =
      generateMockImage company_name ∧
    isValidPngB64 (generate_ad_image svc remote prompt company_name).1 := by
  have h1 : (generate_ad_image svc remote prompt company_name).1 =
      generateMockImage company_name := by
    simp [generate_ad_image, hclient, hfail]
  refine ⟨h1, ?_⟩
  rw [h1]
  exact pngEncode_validB64 (mockImage company_name)

/-- Witness for C1: a service built with a token and a remote model that
always raises still yields the mock result for the company label. -/
theorem remote_failure_falls_back_to_mock_witness :
    (generate_ad_image (AIService.init (some "tok")) errRemote "p" "Acme").1 =
      generateMockImage "Acme" ∧
    isValidPngB64 (generate_ad_image (AIService.init (some "tok")) errRemote "p" "Acme").1 :=
  remote_failure_falls_back_to_mock (AIService.init (some "tok")) errRemote
    "p" "Acme" "connection failed" (by decide) rfl

/-- C2: constructed without a credential, the service is permanently in
mock mode: for every prompt (empty or arbitrarily long) and company
name, generate_ad_image performs no remote call and returns the
non-empty, validly PNG-encoded base64 mock image. -/
theorem mock_mode_never_calls_remote
    (remote : RemoteCall → RemoteOutcome) (prompt company_name : String) :
    (generate_ad_image (AIService.init none) remote prompt company_name).2 = [] ∧
    (generate_ad_image (AIService.init none) remote prompt company_name).1 =
      generateMockImage company_name ∧
    (generate_ad_image (AIService.init none) remote prompt company_name).1 ≠ "" ∧
    isValidPngB64 (generate_ad_image (AIService.init none) remote prompt company_name).1 := by
  have h : generate_ad_image (AIService.init none) remote prompt company_name =
      (generateMockImage company_name, []) := rfl
  rw [h]
  exact ⟨rfl, rfl, png_b64_ne_empty (mockImage company_name),
    pngEncode_validB64 (mockImage company_name)⟩

/-- C3 counterexample: the prompt composed by the generate-ad route does
not embed the website company field, so it does not embed every company
field; shown at a concrete company whose website value occurs nowhere in
the composed prompt, which is exactly the persisted prompt. -/
theorem generate_ad_prompt_omits_website :
    ((generate_ad (AIService.init none) errRemote "ad-1" 0 acmeRequest
        acmeState).2.ads.map (fun a => a.prompt_used)) =
      [buildAdPrompt acmeCompany acmeRequest] ∧
    ¬ containsStr (buildAdPrompt acmeCompany acmeRequest) acmeCompany.website := by
  decide

/-- C3 (amended): the composed prompt is a multi-line structured prompt
embedding every company field except website, plus the requested style
and ad format; a non-empty custom_prompt is appended as an additional
requirements line; and the composed prompt is persisted verbatim as
prompt_used of the stored GeneratedAd. -/
theorem generate_ad_prompt_contents
    (svc : AIService) (remote : RemoteCall → RemoteOutcome) (freshId : String)
    (now : Nat) (req : AdGenerationRequest) (s : DBState) (c : CompanyRecord)
    (hfind : findCompany s req.company_id = some c) :
    ((generate_ad svc remote freshId now req s).2.ads.map (fun a => a.prompt_used) =
      s.ads.map (fun a => a.prompt_used) ++ [buildAdPrompt c req]) ∧
    containsStr (buildAdPrompt c req) c.name ∧
    containsStr (buildAdPrompt c req) c.industry ∧
    containsStr (buildAdPrompt c req) c.product_service ∧
    containsStr (buildAdPrompt c req) c.target_audience ∧
    containsStr (buildAdPrompt c req) c.brand_description ∧
    containsStr (buildAdPrompt c req) req.style ∧
    containsStr (buildAdPrompt c req) req.ad_type ∧
    (req.custom_prompt ≠ "" →
      containsStr (buildAdPrompt c req)
        ("\nAdditional Requirements: " ++ req.custom_prompt)) := by
  have hb := basePromptCore_contains c req.style req.ad_type
  refine ⟨?_, buildAdPrompt_lift c req _ hb.1, buildAdPrompt_lift c req _ hb.2.1,
    buildAdPrompt_lift c req _ hb.2.2.1, buildAdPrompt_lift c req _ hb.2.2.2.1,
    buildAdPrompt_lift c req _ hb.2.2.2.2.1, buildAdPrompt_lift c req _ hb.2.2.2.2.2.1,
    buildAdPrompt_lift c req _ hb.2.2.2.2.2.2, fun h => buildAdPrompt_custom c req h⟩
  rw [generate_ad_found svc remote freshId now req s c hfind]
  simp [adRecordOf]

/-- Witness for C3 (amended) at the Acme Retail Shoes Teens company of
the spec scenario: the stored prompt is the composed prompt and embeds
the four profile fields. -/
theorem generate_ad_prompt_contents_witness :
    ((generate_ad (AIService.init none) errRemote "ad-2" 0 acmeRequest
        acmeState).2.ads.map (fun a => a.prompt_used) =
      [buildAdPrompt acmeCompany acmeRequest]) ∧
    containsStr (buildAdPrompt acmeCompany acmeRequest) acmeCompany.name ∧
    containsStr (buildAdPrompt acmeCompany acmeRequest) acmeCompany.industry ∧
    containsStr (buildAdPrompt acmeCompany acmeRequest) acmeCompany.product_service ∧
    containsStr (buildAdPrompt acmeCompany acmeRequest) acmeCompany.target_audience := by
  have h := generate_ad_prompt_contents (AIService.init none) errRemote "ad-2" 0
    acmeRequest acmeState acmeCompany (by decide)
  exact ⟨by simpa [acmeState] using h.1, h.2.1, h.2.2.1, h.2.2.2.1, h.2.2.2.2.1⟩

/-- C4: POST /api/generate-ad returns 404 exactly when no stored company
has the requested company_id, and any returned GeneratedAd carries the
requested company_id. -/
theorem generate_ad_404_iff
    (svc : AIService) (remote : RemoteCall → RemoteOutcome) (freshId : String)
    (now : Nat) (req : AdGenerationRequest) (s : DBState) :
    ((generate_ad svc remote freshId now req s).1 =
        ApiResult.error 404 "Company not found" ↔
      ∀ c ∈ s.companies, c.id ≠ req.company_id) ∧
    ∀ ad : GeneratedAd,
      (generate_ad svc remote freshId now req s).1 = ApiResult.ok ad →
        ad.company_id = req.company_id := by
  cases hfind : findCompany s req.company_id with
  | none =>
    have hall : ∀ c ∈ s.companies, c.id ≠ req.company_id := by
      intro c hc
      have h1 := List.find?_eq_none.mp hfind c hc
      simpa using h1
    rw [generate_ad_none svc remote freshId now req s hfind]
    refine ⟨⟨fun _ => hall, fun _ => rfl⟩, ?_⟩
    intro ad had
    cases had
  | some company =>
    have hmem : company ∈ s.companies := List.mem_of_find?_eq_some hfind
    have hpc : company.id = req.company_id := by
      have h1 := List.find?_some hfind
      simpa using h1
    rw [generate_ad_found svc remote freshId now req s company hfind]
    refine ⟨⟨fun h => ?_, fun h => absurd hpc (h company hmem)⟩, ?_⟩
    · cases h
    · intro ad had
      have h2 : adRecordOf svc remote freshId now req company = ad := by
        injection had
      rw [← h2]
      rfl

/-- Witness for C4: with no companies stored, the route yields 404. -/
theorem generate_ad_404_iff_witness :
    (generate_ad (AIService.init none) errRemote "ad-3" 0 acmeRequest
        (DBState.mk [] [])).1 = ApiResult.error 404 "Company not found" :=
  (generate_ad_404_iff (AIService.init none) errRemote "ad-3" 0 acmeRequest
    (DBState.mk [] [])).1.mpr (by decide)

/-- C5: DELETE /api/ads on a missing id returns 404 and leaves the ads
collection unchanged; on an existing id it reports success, removes
exactly one record while keeping every other record, and when the id was
unique a repeated delete of the same id yields 404. -/
theorem delete_ad_spec (ad_id : String) (s : DBState) :
    ((∀ a ∈ s.ads, a.id ≠ ad_id) →
        delete_ad ad_id s = (ApiResult.error 404 "Ad not found", s)) ∧
    (∀ a ∈ s.ads, a.id = ad_id →
        (delete_ad ad_id s).1 = ApiResult.ok "Ad deleted successfully" ∧
        ((delete_ad ad_id s).2).ads.length + 1 = s.ads.length ∧
        (∀ b ∈ s.ads, b.id ≠ ad_id → b ∈ ((delete_ad ad_id s).2).ads) ∧
        (countAdId ad_id s.ads = 1 →
          (delete_ad ad_id ((delete_ad ad_id s).2)).1 =
            ApiResult.error 404 "Ad not found")) := by
  constructor
  · intro h
    have hd := deleteOneAd_not_found s.ads ad_id h
    simp [delete_ad, hd]
  · intro a ha hid
    have hf := deleteOneAd_found s.ads ad_id a ha hid
    have hne : ((deleteOneAd s.ads ad_id).1 == 0) = false := by
      simp [hf.1]
    have hstate : ((delete_ad ad_id s).2).ads = (deleteOneAd s.ads ad_id).2 := by
      rw [delete_ad_state]
    refine ⟨?_, ?_, ?_, ?_⟩
    · simp [delete_ad, hne]
    · rw [hstate]
      exact hf.2
    · intro b hb hbne
      rw [hstate]
      exact deleteOneAd_mem_keep s.ads ad_id b hb hbne
    · intro hcount
      have hcnt := deleteOneAd_count s.ads ad_id
      rw [hf.1, hcount] at hcnt
      have hzero : countAdId ad_id (deleteOneAd s.ads ad_id).2 = 0 := by omega
      have hall := (countAdId_zero_iff ad_id _).mp hzero
      have hd2 := deleteOneAd_not_found (deleteOneAd s.ads ad_id).2 ad_id hall
      rw [delete_ad_state ad_id s]
      simp [delete_ad, hd2]

/-- Witness for C5: deleting a missing id 404s and keeps the state;
deleting the stored id succeeds and a second delete of the same id 404s. -/
theorem delete_ad_spec_witness :
    delete_ad "zzz" adState = (ApiResult.error 404 "Ad not found", adState) ∧
    (delete_ad "a1" adState).1 = ApiResult.ok "Ad deleted successfully" ∧
    (delete_ad "a1" ((delete_ad "a1" adState).2)).1 =
      ApiResult.error 404 "Ad not found" := by
  refine ⟨(delete_ad_spec "zzz" adState).1 (by decide), ?_, ?_⟩
  · exact ((delete_ad_spec "a1" adState).2 ad1 (by decide) (by decide)).1
  · exact ((delete_ad_spec "a1" adState).2 ad1 (by decide) (by decide)).2.2.2 (by decide)

/-- C6 counterexample: the health body of the ad service holds exactly
the keys status and ai_service and no model key, so the response shape
of the claim, which includes a model field, does not hold. -/
theorem health_body_has_no_model_field :
    health_check_body (AIService.init none) =
      [("status", "healthy"), ("ai_service", "mock_mode")] ∧
    ((health_check_body (AIService.init none)).map Prod.fst).contains "model" = false := by
  decide

/-- C6 (amended): the health body has exactly the keys status and
ai_service, and ai_service is ready exactly when a non-empty credential
was configured at startup and mock_mode otherwise, decided from the
stored client flag with no remote call. -/
theorem health_check_reports_mode (tok : Option String) :
    (health_check_body (AIService.init tok)).map Prod.fst = ["status", "ai_service"] ∧
    lookupField (health_check_body (AIService.init tok)) "ai_service" =
      some (if (AIService.init tok).client then "ready" else "mock_mode") ∧
    (AIService.init tok).client = (tok.getD "" != "") := by
  refine ⟨rfl, health_lookup (AIService.init tok), ?_⟩
  cases tok <;> rfl

/-- C7 counterexample: the mock canvas has the same fixed color at every
column (no banded gradient), and the drawn caption is the raw label
caption with five lines, one of them fifty characters long, so the text
is neither word-wrapped to lines under forty characters nor truncated to
three lines. -/
theorem mock_renderer_layout_counterexample :
    (mockImage longLabel).background = "#f0f0f0" ∧
    (List.range 512).all (fun col => mockColumnColor longLabel col == "#f0f0f0") = true ∧
    ((mockImage longLabel).texts.map (fun t => t.2.2.1)) =
      [mockCaption longLabel, "Generated with AI"] ∧
    (captionLines (mockCaption longLabel)).length = 5 ∧
    ((captionLines (mockCaption longLabel)).getD 1 []).length = 50 := by
  decide

/-- C7 (amended): for every input label the Mock Image Renderer produces
a 512 by 512 canvas with the fixed uniform base color f0f0f0 (the same
color at every column), on which the caption Mock Ad for followed by the
label on a new line is drawn in full, without word-wrapping or
truncation, plus the fixed trailer caption Generated with AI. -/
theorem mock_renderer_spec (label : String) :
    (mockImage label).width = 512 ∧
    (mockImage label).height = 512 ∧
    (mockImage label).background = "#f0f0f0" ∧
    (List.range 512).all (fun col => mockColumnColor label col == "#f0f0f0") = true ∧
    (mockImage label).texts =
      [(50, 200, mockCaption label, "black"), (50, 300, "Generated with AI", "gray")] ∧
    containsStr (mockCaption label) label := by
  refine ⟨rfl, rfl, rfl, ?_, rfl, ?_⟩
  · simp [mockColumnColor, mockImage]
  · show containsStr ("Mock Ad for\n" ++ label) label
    exact containsStr_appendR _ _ _ (containsStr_refl _)

theorem nodup_append_fresh {α : Type} (l : List α) (x : α)
    (hx : x ∉ l) (hl : l.Nodup) : (l ++ [x]).Nodup := by
  rw [List.nodup_append_comm]
  exact List.nodup_cons.mpr ⟨hx, hl⟩

/-- C8 counterexample: with a client configured, the single remote
invocation does not send the given prompt itself; it sends the fixed
enhanced wrapper, which differs from the given prompt. -/
theorem remote_prompt_enhanced_counterexample :
    ((generate_ad_image (AIService.init (some "tok")) okRemote "a red bicycle" "Acme").2.map
        (fun c => c.prompt)) = [adPrompt "Acme" "a red bicycle"] ∧
    adPrompt "Acme" "a red bicycle" ≠ "a red bicycle" := by
  decide

/-- C8 (amended): when a credential is present, every call to
generate_ad_image attempts exactly one remote invocation against the
fixed stable-diffusion model identifier, sending the fixed enhanced
wrapper of the given prompt, which contains the given prompt verbatim;
and the returned value, remote or mock, is always PNG bytes base64
encoded to text. -/
theorem generate_ad_image_remote_spec
    (tok prompt company_name : String) (remote : RemoteCall → RemoteOutcome)
    (img : RawImage) (htok : tok ≠ "") :
    (generate_ad_image (AIService.init (some tok)) remote prompt company_name).2 =
      [⟨stableDiffusionModel, adPrompt company_name prompt⟩] ∧
    containsStr (adPrompt company_name prompt) prompt ∧
    (remote ⟨stableDiffusionModel, adPrompt company_name prompt⟩ = RemoteOutcome.ok img →
      (generate_ad_image (AIService.init (some tok)) remote prompt company_name).1 =
        b64encode (pngEncode img)) ∧
    isValidPngB64 (generate_ad_image (AIService.init (some tok)) remote prompt company_name).1 := by
  have hcl : (AIService.init (some tok)).client = true := by
    simpa [AIService.init] using htok
  have hsub : containsStr (adPrompt company_name prompt) prompt := by
    unfold adPrompt
    exact containsStr_appendL _ _ _ (containsStr_appendR _ _ _ (containsStr_refl _))
  cases hr : remote ⟨stableDiffusionModel, adPrompt company_name prompt⟩ with
  | ok i =>
    have hh : generate_ad_image (AIService.init (some tok)) remote prompt company_name =
        (b64encode (pngEncode i), [⟨stableDiffusionModel, adPrompt company_name prompt⟩]) := by
      simp [generate_ad_image, hcl, hr]
    refine ⟨by rw [hh], hsub, ?_, ?_⟩
    · intro hok
      injection hok with hi
      rw [hh, hi]
    · rw [hh]
      exact pngEncode_validB64 i
  | err e =>
    have hh : generate_ad_image (AIService.init (some tok)) remote prompt company_name =
        (generateMockImage company_name, [⟨stableDiffusionModel, adPrompt company_name prompt⟩]) := by
      simp [generate_ad_image, hcl, hr]
    refine ⟨by rw [hh], hsub, ?_, ?_⟩
    · intro hok
      cases hok
    · rw [hh]
      exact pngEncode_validB64 (mockImage company_name)

/-- Witness for C8 (amended): a concrete configured service with a
succeeding remote model makes exactly the one enhanced call and returns
the base64 PNG encoding of the received image. -/
theorem generate_ad_image_remote_spec_witness :
    (generate_ad_image (AIService.init (some "tok")) okRemote "p" "Acme").2 =
      [⟨stableDiffusionModel, adPrompt "Acme" "p"⟩] ∧
    (generate_ad_image (AIService.init (some "tok")) okRemote "p" "Acme").1 =
      b64encode (pngEncode blankImage) := by
  have h := generate_ad_image_remote_spec "tok" "p" "Acme" okRemote blankImage (by decide)
  exact ⟨h.1, h.2.2.1 rfl⟩

/-- C9: no API operation mutates an existing stored record: every
operation keeps every stored company, keeps every stored ad except the
one a delete targets, adds nothing but the freshly inserted record of a
create or generate operation carrying its fresh id and timestamp, and
inserting with a fresh id preserves uniqueness of ids per collection. -/
theorem api_operations_never_mutate
    (svc : AIService) (remote : RemoteCall → RemoteOutcome) (op : ApiOp) (s : DBState) :
    (∀ c ∈ s.companies, c ∈ (applyOp svc remote op s).companies) ∧
    (∀ c ∈ (applyOp svc remote op s).companies, c ∈ s.companies ∨ opInsertsCompany op c) ∧
    (∀ a ∈ s.ads, a ∈ (applyOp svc remote op s).ads ∨ opDeletesAdId op a.id) ∧
    (∀ a ∈ (applyOp svc remote op s).ads, a ∈ s.ads ∨ opInsertsAd op a) ∧
    (∀ fid now c, op = ApiOp.createCompanyOp fid now c →
      fid ∉ s.companies.map (fun r => r.id) →
      (s.companies.map (fun r => r.id)).Nodup →
      ((applyOp svc remote op s).companies.map (fun r => r.id)).Nodup) ∧
    (∀ fid now req, op = ApiOp.generateAdOp fid now req →
      fid ∉ s.ads.map (fun a => a.id) →
      (s.ads.map (fun a => a.id)).Nodup →
      ((applyOp svc remote op s).ads.map (fun a => a.id)).Nodup) := by
  cases op with
  | healthOp =>
    refine ⟨fun c hc => hc, fun c hc => Or.inl hc, fun a ha => Or.inl ha,
      fun a ha => Or.inl ha, ?_, ?_⟩
    · intro fid now c he
      cases he
    · intro fid now req he
      cases he
  | getCompaniesOp =>
    refine ⟨fun c hc => hc, fun c hc => Or.inl hc, fun a ha => Or.inl ha,
      fun a ha => Or.inl ha, ?_, ?_⟩
    · intro fid now c he
      cases he
    · intro fid now req he
      cases he
  | getCompanyOp cid =>
    refine ⟨fun c hc => hc, fun c hc => Or.inl hc, fun a ha => Or.inl ha,
      fun a ha => Or.inl ha, ?_, ?_⟩
    · intro fid now c he
      cases he
    · intro fid now req he
      cases he
  | getCompanyAdsOp cid =>
    refine ⟨fun c hc => hc, fun c hc => Or.inl hc, fun a ha => Or.inl ha,
      fun a ha => Or.inl ha, ?_, ?_⟩
    · intro fid now c he
      cases he
    · intro fid now req he
      cases he
  | getAllAdsOp =>
    refine ⟨fun c hc => hc, fun c hc => Or.inl hc, fun a ha => Or.inl ha,
      fun a ha => Or.inl ha, ?_, ?_⟩
    · intro fid now c he
      cases he
    · intro fid now req he
      cases he
  | createCompanyOp fid now c0 =>
    have happ : applyOp svc remote (ApiOp.createCompanyOp fid now c0) s =
        { s with companies := s.companies ++ [companyRecordOf fid now c0] } := rfl
    rw [happ]
    refine ⟨?_, ?_, fun a ha => Or.inl ha, fun a ha => Or.inl ha, ?_, ?_⟩
    · intro x hx
      exact List.mem_append.mpr (Or.inl hx)
    · intro x hx
      rcases List.mem_append.mp hx with h1 | h1
      · exact Or.inl h1
      · have h2 : x = companyRecordOf fid now c0 := by simpa using h1
        subst h2
        exact Or.inr ⟨fid, now, c0, rfl, rfl, rfl⟩
    · intro fid2 now2 c2 he hfresh hnodup
      injection he with e1 e2 e3
      subst e1
      subst e2
      subst e3
      have hmap : ({ s with companies := s.companies ++ [companyRecordOf fid now c0] } :
          DBState).companies.map (fun r => r.id) =
          s.companies.map (fun r => r.id) ++ [fid] := by
        simp [companyRecordOf]
      rw [hmap]
      exact nodup_append_fresh _ _ hfresh hnodup
    · intro fid2 now2 req2 he
      cases he
  | generateAdOp fid now req =>
    cases hfind : findCompany s req.company_id with
    | none =>
      have happ : applyOp svc remote (ApiOp.generateAdOp fid now req) s = s := by
        show (generate_ad svc remote fid now req s).2 = s
        rw [generate_ad_none svc remote fid now req s hfind]
      rw [happ]
      refine ⟨fun c hc => hc, fun c hc => Or.inl hc, fun a ha => Or.inl ha,
        fun a ha => Or.inl ha, ?_, ?_⟩
      · intro fid2 now2 c2 he
        cases he
      · intro fid2 now2 req2 he hfresh hnodup
        exact hnodup
    | some company =>
      have happ : applyOp svc remote (ApiOp.generateAdOp fid now req) s =
          { s with ads := s.ads ++ [adRecordOf svc remote fid now req company] } := by
        show (generate_ad svc remote fid now req s).2 = _
        rw [generate_ad_found svc remote fid now req s company hfind]
      rw [happ]
      refine ⟨fun c hc => hc, fun c hc => Or.inl hc, ?_, ?_, ?_, ?_⟩
      · intro a ha
        exact Or.inl (List.mem_append.mpr (Or.inl ha))
      · intro a ha
        rcases List.mem_append.mp ha with h1 | h1
        · exact Or.inl h1
        · have h2 : a = adRecordOf svc remote fid now req company := by simpa using h1
          subst h2
          exact Or.inr ⟨fid, now, req, rfl, rfl, rfl⟩
      · intro fid2 now2 c2 he
        cases he
      · intro fid2 now2 req2 he hfresh hnodup
        injection he with e1 e2 e3
        subst e1
        subst e2
        subst e3
        have hmap : ({ s with ads := s.ads ++ [adRecordOf svc remote fid now req company] } :
            DBState).ads.map (fun a => a.id) =
            s.ads.map (fun a => a.id) ++ [fid] := by
          simp [adRecordOf]
        rw [hmap]
        exact nodup_append_fresh _ _ hfresh hnodup
  | deleteAdOp aid =>
    have happ : applyOp svc remote (ApiOp.deleteAdOp aid) s =
        { s with ads := (deleteOneAd s.ads aid).2 } := delete_ad_state aid s
    rw [happ]
    refine ⟨fun c hc => hc, fun c hc => Or.inl hc, ?_, ?_, ?_, ?_⟩
    · intro a ha
      rcases deleteOneAd_orig s.ads aid a ha with h1 | h1
      · exact Or.inl h1
      · right
        show ApiOp.deleteAdOp aid = ApiOp.deleteAdOp a.id
        rw [h1]
    · intro a ha
      exact Or.inl (deleteOneAd_mem_of s.ads aid a ha)
    · intro fid now c he
      cases he
    · intro fid now req he
      cases he

/-- Witness for C9: a read operation keeps the stored ad intact. -/
theorem api_operations_never_mutate_witness :
    ad1 ∈ (applyOp (AIService.init none) errRemote ApiOp.getAllAdsOp adState).ads ∨
      opDeletesAdId ApiOp.getAllAdsOp ad1.id :=
  (api_operations_never_mutate (AIService.init none) errRemote
    ApiOp.getAllAdsOp adState).2.2.1 ad1 (by decide)

/-- C10: GET /api/ads for a company id returns exactly the stored ads
whose company_id equals the path parameter, reads nothing but the ads
collection, and when nothing matches, including when no such company
exists, it returns an empty 200 list rather than a 404. -/
theorem get_company_ads_spec (company_id : String) (s : DBState) :
    get_company_ads company_id s =
      ApiResult.ok (s.ads.filter (fun a => a.company_id == company_id)) ∧
    (∀ a : GeneratedAd,
      a ∈ s.ads.filter (fun a => a.company_id == company_id) ↔
        a ∈ s.ads ∧ a.company_id = company_id) ∧
    (∀ t : DBState, t.ads = s.ads →
      get_company_ads company_id t = get_company_ads company_id s) ∧
    ((∀ a ∈ s.ads, a.company_id ≠ company_id) →
      get_company_ads company_id s = ApiResult.ok []) := by
  refine ⟨rfl, ?_, ?_, ?_⟩
  · intro a
    simp [List.mem_filter]
  · intro t ht
    simp [get_company_ads, ht]
  · intro h
    have hnil : s.ads.filter (fun a => a.company_id == company_id) = [] := by
      rw [List.filter_eq_nil_iff]
      intro a ha
      simpa using h a ha
    simp [get_company_ads, hnil]

/-- Witness for C10: the stored ad of company c-1 is returned for c-1,
and a company id with no ads, or no company at all, yields an empty 200
list. -/
theorem get_company_ads_spec_witness :
    get_company_ads "c-1" adState =
      ApiResult.ok (adState.ads.filter (fun a => a.company_id == "c-1")) ∧
    get_company_ads "missing" adState = ApiResult.ok [] :=
  ⟨(get_company_ads_spec "c-1" adState).1,
   (get_company_ads_spec "missing" adState).2.2.2 (by decide)⟩
